import Mathlib

/-!
Verification development for the agent runtime of this repository:
a shallow embedding of the event dispatcher (src/agent/event_loop.py),
the operating-state machine (src/agent/state_manager.py) and the
component lifecycle manager (src/agent/memory_manager.py), together
with theorems settling the documented behavioural properties.

Modelling conventions:
  - wall-clock instants are integers (seconds); each operation that reads
    the clock in the source takes the current instant as an argument;
  - the asyncio priority queue is a list together with a pop-minimum
    operation (the queue contract: the entry with the lowest priority
    ordinal is retrieved first);
  - a handler invocation is summarised by its outcome: success, a raised
    error, or a timeout (the source treats error and timeout alike);
  - log statements have no observable effect and are dropped, except that
    operations whose branch is only observable through a log line return
    an extra flag recording which branch ran (e.g. whether a factory was
    invoked by ComponentRef.load).
-/

/-- Event priority levels, from event_loop.py (EventPriority). -/
inductive EventPriority
  | critical
  | high
  | normal
  | low
  | background
deriving DecidableEq

/-- The numeric ordinal of a priority (CRITICAL = 0 ... BACKGROUND = 4);
lower value means served first. -/
def EventPriority.value : EventPriority → Nat
  | .critical => 0
  | .high => 1
  | .normal => 2
  | .low => 3
  | .background => 4

/-- Event kinds, from event_loop.py (EventType). -/
inductive EventType
  | call
  | whatsapp
  | telegram
  | memory
  | system
  | user
deriving DecidableEq

/-- An event, from event_loop.py (Event). The payload is opaque to the
dispatcher and modelled as a number; event identity is a number. -/
structure Event where
  event_type : EventType
  data : Nat
  priority : EventPriority
  timestamp : Int
  retry_count : Nat
  max_retries : Nat
  event_id : Nat
deriving DecidableEq

/-- Comparison used by the priority queue, from Event.lt in
event_loop.py: compares only the priority ordinals. -/
def Event.lt (a b : Event) : Bool :=
  decide (a.priority.value < b.priority.value)

/-- Dispatcher configuration, from event_loop.py (EventLoopConfig).
Delays are in whole seconds. -/
structure EventLoopConfig where
  max_queue_size : Nat
  worker_count : Nat
  default_timeout_seconds : Nat
  retry_delay_seconds : Nat
  max_retry_delay_seconds : Nat
deriving DecidableEq

/-- The source defaults: queue capacity 1000, 4 workers, 30s handler
timeout, retry base delay 1s, retry max delay 60s. -/
def EventLoopConfig.default : EventLoopConfig :=
  { max_queue_size := 1000
    worker_count := 4
    default_timeout_seconds := 30
    retry_delay_seconds := 1
    max_retry_delay_seconds := 60 }

/-- The metrics counters kept by the dispatcher. -/
structure Metrics where
  processed : Nat
  failed : Nat
  retried : Nat
  dropped : Nat
deriving DecidableEq

/-- All counters at zero, the state after construction. -/
def Metrics.zero : Metrics :=
  { processed := 0, failed := 0, retried := 0, dropped := 0 }

/-- Summary of one handler invocation: it returned normally, raised an
error, or exceeded the per-handler timeout. -/
inductive HandlerOutcome
  | ok
  | error (msg : String)
  | timeout
deriving DecidableEq

/-- The dispatcher state, from event_loop.py (EventLoop): configuration,
the pending queue, the handler registry per event kind, and the metrics. -/
structure EventLoop where
  config : EventLoopConfig
  queue : List Event
  handlers : EventType → List (Event → HandlerOutcome)
  metrics : Metrics

/-- Whether the queue is at capacity: the asyncio queue reports full when
a positive maxsize is at most the current size. -/
def EventLoop.queue_full (el : EventLoop) : Bool :=
  decide (0 < el.config.max_queue_size) && decide (el.config.max_queue_size ≤ el.queue.length)

/-- EventLoop.emit from event_loop.py: build the event, try a
non-blocking put; on a full queue drop it and count it as dropped,
returning nothing; otherwise return the enqueued event. -/
def EventLoop.emit (el : EventLoop) (event_type : EventType) (data : Nat)
    (priority : EventPriority) (now : Int) (eid : Nat) : Option Event × EventLoop :=
  let event : Event :=
    { event_type := event_type, data := data, priority := priority,
      timestamp := now, retry_count := 0, max_retries := 3, event_id := eid }
  if el.queue_full then
    (none, { el with metrics := { el.metrics with dropped := el.metrics.dropped + 1 } })
  else
    (some event, { el with queue := el.queue ++ [event] })

/-- EventLoop.handle_failure from event_loop.py: count the failure; if
the retry ceiling is not yet reached, bump the retry counter on the event
(mutated in place in the source, hence returned here), count the retry,
and resubmit with a non-blocking put (a full queue drops the retry). -/
def EventLoop.handle_failure (el : EventLoop) (event : Event) : EventLoop × Event :=
  let el := { el with metrics := { el.metrics with failed := el.metrics.failed + 1 } }
  if event.retry_count < event.max_retries then
    let event := { event with retry_count := event.retry_count + 1 }
    let el := { el with metrics := { el.metrics with retried := el.metrics.retried + 1 } }
    if el.queue_full then
      ({ el with metrics := { el.metrics with dropped := el.metrics.dropped + 1 } }, event)
    else
      ({ el with queue := el.queue ++ [event] }, event)
  else
    (el, event)

/-- The handler loop inside EventLoop.process_event: invoke each
registered handler in order on the (possibly mutated) event; a success
counts as processed, an error or timeout goes through handle_failure. -/
def EventLoop.run_handlers (el : EventLoop) (event : Event) :
    List (Event → HandlerOutcome) → EventLoop
  | [] => el
  | h :: rest =>
    match h event with
    | HandlerOutcome.ok =>
      let el := { el with metrics := { el.metrics with processed := el.metrics.processed + 1 } }
      el.run_handlers event rest
    | _ =>
      let p := el.handle_failure event
      p.1.run_handlers p.2 rest

/-- EventLoop.process_event from event_loop.py: look up the handlers for
the event kind (none registered means the event is logged and discarded)
and run them in registration order. -/
def EventLoop.process_event (el : EventLoop) (event : Event) : EventLoop :=
  el.run_handlers event (el.handlers event.event_type)

/-- Pop a minimum-priority entry from a non-empty queue, the retrieval
contract of the asyncio priority queue under Event.lt (for entries of
equal priority ordinal the earlier entry is chosen; the source leaves
that tie unbroken). Returns the popped event and the remaining queue. -/
def pq_pop_cons (e : Event) : List Event → Event × List Event
  | [] => (e, [])
  | f :: fs =>
    let p := pq_pop_cons f fs
    if Event.lt p.1 e then (p.1, e :: p.2) else (e, f :: fs)

/-- The order in which queued events are handed to handlers when workers
drain the queue: repeatedly pop the minimum-priority entry. Fuel bounds
the number of pops. -/
def dispatch_order : Nat → List Event → List Event
  | 0, _ => []
  | _ + 1, [] => []
  | fuel + 1, e :: q =>
    let p := pq_pop_cons e q
    p.1 :: dispatch_order fuel p.2

/-- A worker draining the dispatcher until the queue is empty or fuel
runs out: pop the minimum-priority event, process it (which may resubmit
it through the retry path), repeat. Returns the total number of handler
invocations together with the final dispatcher state. -/
def worker_drain : Nat → EventLoop → Nat × EventLoop
  | 0, el => (0, el)
  | fuel + 1, el =>
    match el.queue with
    | [] => (0, el)
    | e :: q =>
      let p := pq_pop_cons e q
      let el1 := EventLoop.process_event { el with queue := p.2 } p.1
      let r := worker_drain fuel el1
      ((el.handlers p.1.event_type).length + r.1, r.2)

/-- Agent operating states, from state_manager.py (AgentState). -/
inductive AgentState
  | idle
  | busy
  | sleeping
deriving DecidableEq

/-- State-machine configuration, from state_manager.py (StateConfig):
the idle-to-sleep timeout in seconds and the power-optimization switch. -/
structure StateConfig where
  sleep_after_idle_seconds : Int
  wake_on_event : Bool
  battery_optimization : Bool
deriving DecidableEq

/-- The source defaults: sleep after 300 idle seconds, wake on event,
battery optimization on. -/
def StateConfig.default : StateConfig :=
  { sleep_after_idle_seconds := 300, wake_on_event := true, battery_optimization := true }

/-- The state machine, from state_manager.py (StateManager). Callbacks
are identified by opaque numeric labels kept per state in registration
order; sleep_task records whether a scheduled one-shot sleep timer is
currently pending (in the source, an asyncio task handle that is present
and not yet cancelled or fired). -/
structure StateManager where
  config : StateConfig
  state : AgentState
  state_changed_at : Int
  last_activity_at : Int
  callbacks : AgentState → List Nat
  sleep_task : Bool

/-- StateManager.register_callback: append a callback label to the list
kept for the given state. -/
def StateManager.register_callback (sm : StateManager) (state : AgentState)
    (cb : Nat) : StateManager :=
  { sm with callbacks := fun s =>
      if s = state then sm.callbacks s ++ [cb] else sm.callbacks s }

/-- StateManager.transition_to from state_manager.py: a no-op when the
new state equals the current one (no callbacks fire); otherwise commit
the new state, and on entering BUSY record activity and cancel any
pending sleep timer; then notify the callbacks registered for the new
state, in registration order. The returned list records each fired
callback paired with the state it observes when invoked (the source
fires callbacks after the state is committed). -/
def StateManager.transition_to (sm : StateManager) (new_state : AgentState)
    (now : Int) : StateManager × List (Nat × AgentState) :=
  if sm.state = new_state then (sm, [])
  else
    let sm1 := { sm with state := new_state, state_changed_at := now }
    let sm2 :=
      if new_state = AgentState.busy then
        { sm1 with last_activity_at := now, sleep_task := false }
      else sm1
    (sm2, (sm2.callbacks new_state).map (fun cb => (cb, sm2.state)))

/-- StateManager.schedule_sleep from state_manager.py: cancel any
existing pending sleep timer and schedule a fresh one-shot timer that
will transition to SLEEPING after the idle timeout. -/
def StateManager.schedule_sleep (sm : StateManager) : StateManager :=
  { sm with sleep_task := true }

/-- StateManager.set_busy: transition to BUSY. -/
def StateManager.set_busy (sm : StateManager) (now : Int) :
    StateManager × List (Nat × AgentState) :=
  sm.transition_to AgentState.busy now

/-- StateManager.set_idle from state_manager.py: transition to IDLE,
then, when battery optimization is configured, schedule the sleep
timer. -/
def StateManager.set_idle (sm : StateManager) (now : Int) :
    StateManager × List (Nat × AgentState) :=
  let r := sm.transition_to AgentState.idle now
  if r.1.config.battery_optimization then (r.1.schedule_sleep, r.2) else r

/-- StateManager.set_sleeping: transition to SLEEPING. -/
def StateManager.set_sleeping (sm : StateManager) (now : Int) :
    StateManager × List (Nat × AgentState) :=
  sm.transition_to AgentState.sleeping now

/-- The scheduled sleep timer firing after the idle timeout elapses: the
body of sleep_after_timeout in state_manager.py runs set_sleeping, but
only if the task is still pending — a cancelled task body never runs.
A fired one-shot timer is no longer pending afterwards. -/
def StateManager.timer_fire (sm : StateManager) (now : Int) :
    StateManager × List (Nat × AgentState) :=
  if sm.sleep_task then
    let r := sm.set_sleeping now
    ({ r.1 with sleep_task := false }, r.2)
  else (sm, [])

/-- StateManager.wake_if_sleeping from state_manager.py: when sleeping,
go idle (scheduling the sleep timer per set_idle) and report true. -/
def StateManager.wake_if_sleeping (sm : StateManager) (now : Int) :
    StateManager × List (Nat × AgentState) × Bool :=
  if sm.state = AgentState.sleeping then
    let r := sm.set_idle now
    (r.1, r.2, true)
  else (sm, [], false)

/-- Memory-management configuration, from memory_manager.py
(MemoryConfig); the idle-unload threshold in seconds (default 300). -/
structure MemoryConfig where
  unload_after_idle_seconds : Int
  memory_check_interval_seconds : Int
  memory_threshold_percent : Int
  gc_threshold_mb : Int
deriving DecidableEq

/-- The source defaults. -/
def MemoryConfig.default : MemoryConfig :=
  { unload_after_idle_seconds := 300
    memory_check_interval_seconds := 60
    memory_threshold_percent := 85
    gc_threshold_mb := 100 }

/-- A lazy-loaded component reference, from memory_manager.py
(ComponentRef), over an arbitrary instance type T. The factory returns an
instance; the optional unload callback (disposer) may succeed or raise,
modelled by an Except result. -/
structure ComponentRef (T : Type) where
  name : String
  factory : Unit → T
  unload_callback : Option (T → Except String Unit)
  inst : Option T
  last_accessed : Option Int
  access_count : Nat
  loaded_at : Option Int

/-- ComponentRef.is_loaded from memory_manager.py: the instance
reference is present. -/
def ComponentRef.is_loaded (c : ComponentRef T) : Bool :=
  c.inst.isSome

/-- ComponentRef.idle_duration from memory_manager.py: seconds since the
last access; a component never accessed reports infinite idleness,
modelled as the absent value. -/
def ComponentRef.idle_duration (c : ComponentRef T) (now : Int) : Option Int :=
  match c.last_accessed with
  | none => none
  | some t => some (now - t)

/-- Comparison of an idle duration against a threshold, matching the
float comparison in the source where the absent value stands for
positive infinity and therefore exceeds every threshold. -/
def idleGT (d : Option Int) (threshold : Int) : Bool :=
  match d with
  | none => true
  | some x => decide (threshold < x)

/-- ComponentRef.load from memory_manager.py: when no instance is
present, invoke the factory and record the load time; in every case
update the last-access time, bump the access counter and return the
instance. The extra flag records whether the factory was invoked (the
branch the source logs as loading the component). -/
def ComponentRef.load (c : ComponentRef T) (now : Int) : T × ComponentRef T × Bool :=
  match c.inst with
  | none =>
    let v := c.factory ()
    let c := { c with inst := some v, loaded_at := some now }
    (v, { c with last_accessed := some now, access_count := c.access_count + 1 }, true)
  | some v =>
    (v, { c with last_accessed := some now, access_count := c.access_count + 1 }, false)

/-- ComponentRef.unload from memory_manager.py: when an instance is
present, run the disposer on it (an error is logged and swallowed) and
then clear the instance reference. The second component reports the
disposer outcome, absent when nothing was loaded or no disposer was
registered. -/
def ComponentRef.unload (c : ComponentRef T) :
    ComponentRef T × Option (Except String Unit) :=
  match c.inst with
  | none => (c, none)
  | some v =>
    let r := c.unload_callback.map (fun d => d v)
    ({ c with inst := none }, r)

/-- The component lifecycle manager, from memory_manager.py
(MemoryManager): a configuration plus the registry of components, keyed
by name (the registry preserves registration order, as the source dict
does). -/
structure MemoryManager (T : Type) where
  config : MemoryConfig
  components : List (String × ComponentRef T)

/-- Registry lookup by name (dict access in the source). -/
def lookupComponent : List (String × ComponentRef T) → String → Option (ComponentRef T)
  | [], _ => none
  | (n, c) :: rest, name => if n = name then some c else lookupComponent rest name

/-- Registry update: replace the entry for a name already present (the
in-place mutation of the shared ComponentRef object in the source). -/
def updateComponent : List (String × ComponentRef T) → String → ComponentRef T →
    List (String × ComponentRef T)
  | [], _, _ => []
  | (n, c) :: rest, name, c2 =>
    if n = name then (n, c2) :: rest else (n, c) :: updateComponent rest name c2

/-- MemoryManager.register_component from memory_manager.py: create a
fresh reference (overwriting any existing registration under the same
name, which the source merely warns about). -/
def MemoryManager.register_component (mm : MemoryManager T) (name : String)
    (factory : Unit → T) (unload_callback : Option (T → Except String Unit)) :
    MemoryManager T :=
  let c : ComponentRef T :=
    { name := name, factory := factory, unload_callback := unload_callback,
      inst := none, last_accessed := none, access_count := 0, loaded_at := none }
  if (lookupComponent mm.components name).isSome then
    { mm with components := updateComponent mm.components name c }
  else
    { mm with components := mm.components ++ [(name, c)] }

/-- MemoryManager.get_component from memory_manager.py: an unregistered
name is reported to the caller by the distinguished empty result (the
source logs the not-registered error and returns None); otherwise load
the component. The flag reports whether the factory was invoked. -/
def MemoryManager.get_component (mm : MemoryManager T) (name : String)
    (now : Int) : Option T × MemoryManager T × Bool :=
  match lookupComponent mm.components name with
  | none => (none, mm, false)
  | some c =>
    let r := c.load now
    (some r.1, { mm with components := updateComponent mm.components name r.2.1 }, r.2.2)

/-- A sequence of get_component calls on one name, at the given access
instants; returns the returned instances in order, the final manager and
the total number of factory invocations. -/
def MemoryManager.get_n (mm : MemoryManager T) (name : String) :
    List Int → List (Option T) × MemoryManager T × Nat
  | [] => ([], mm, 0)
  | t :: ts =>
    let r := mm.get_component name t
    let rest := r.2.1.get_n name ts
    (r.1 :: rest.1, rest.2.1, (if r.2.2 then 1 else 0) + rest.2.2)

/-- The sweep loop inside MemoryManager.unload_idle_components: walk the
registry in order, unload every loaded component whose idle duration
exceeds the threshold, and collect the unloaded names in sweep order. -/
def sweepIdle (now threshold : Int) :
    List (String × ComponentRef T) → List String × List (String × ComponentRef T)
  | [] => ([], [])
  | (n, c) :: rest =>
    if c.is_loaded && idleGT (c.idle_duration now) threshold then
      let c2 := (c.unload).1
      let r := sweepIdle now threshold rest
      (n :: r.1, (n, c2) :: r.2)
    else
      let r := sweepIdle now threshold rest
      (r.1, (n, c) :: r.2)

/-- MemoryManager.unload_idle_components from memory_manager.py: sweep
the registry against the configured idle threshold, returning the names
unloaded. -/
def MemoryManager.unload_idle_components (mm : MemoryManager T) (now : Int) :
    List String × MemoryManager T :=
  let r := sweepIdle now mm.config.unload_after_idle_seconds mm.components
  (r.1, { mm with components := r.2 })

/-- MemoryManager.unload_component from memory_manager.py: false for an
unknown name, otherwise unload the named component and report true. -/
def MemoryManager.unload_component (mm : MemoryManager T) (name : String) :
    Bool × MemoryManager T :=
  match lookupComponent mm.components name with
  | none => (false, mm)
  | some c =>
    (true, { mm with components := updateComponent mm.components name (c.unload).1 })

/-- A concrete payload-free NORMAL priority SYSTEM event used in concrete
instantiations. -/
def evNormal : Event :=
  { event_type := EventType.system, data := 0, priority := EventPriority.normal,
    timestamp := 0, retry_count := 0, max_retries := 3, event_id := 0 }

/-- A handler that always fails, as in the always-throwing handler
scenario. -/
def hfail : Event → HandlerOutcome :=
  fun _ => HandlerOutcome.error failMsg
where failMsg : String := "handler raised"

/-- A dispatcher with default configuration, the given queue and
metrics, and the always-failing handler registered for every kind. -/
def elFailing (q : List Event) (m : Metrics) : EventLoop :=
  { config := EventLoopConfig.default, queue := q,
    handlers := fun _ => [hfail], metrics := m }

/-- An event of the given retry counter and retry ceiling, used to state
the retry-exhaustion behaviour. -/
def mkEv (c R : Nat) : Event :=
  { event_type := EventType.system, data := 0, priority := EventPriority.normal,
    timestamp := 0, retry_count := c, max_retries := R, event_id := 0 }

/-- A dispatcher with a full default-capacity queue (1000 entries). -/
def elFull : EventLoop :=
  { config := EventLoopConfig.default, queue := List.replicate 1000 evNormal,
    handlers := fun _ => [], metrics := Metrics.zero }

/-- A freshly started dispatcher: default configuration, empty queue,
no handlers, zero metrics. -/
def elEmptyQ : EventLoop :=
  { config := EventLoopConfig.default, queue := [],
    handlers := fun _ => [], metrics := Metrics.zero }

/-- A dispatcher whose every kind has three always-succeeding handlers. -/
def elThreeOk : EventLoop :=
  { config := EventLoopConfig.default, queue := [],
    handlers := fun _ => [fun _ => HandlerOutcome.ok, fun _ => HandlerOutcome.ok,
                          fun _ => HandlerOutcome.ok],
    metrics := Metrics.zero }

/-- A state machine in IDLE with default configuration, two callbacks
registered for BUSY and no pending sleep timer. -/
def smIdle : StateManager :=
  { config := StateConfig.default, state := AgentState.idle,
    state_changed_at := 0, last_activity_at := 0,
    callbacks := fun s => if s = AgentState.busy then [1, 2] else [],
    sleep_task := false }

/-- A state machine in SLEEPING with default configuration, no
callbacks, no pending sleep timer. -/
def smSleeping : StateManager :=
  { config := StateConfig.default, state := AgentState.sleeping,
    state_changed_at := 0, last_activity_at := 0,
    callbacks := fun _ => [], sleep_task := false }

/-- The name of the concrete component used in instantiations. -/
def brainName : String := "brain"

/-- A registered, not yet loaded component whose factory returns the
token 42. -/
def crefBrain : ComponentRef Nat :=
  { name := brainName, factory := fun _ => 42, unload_callback := none,
    inst := none, last_accessed := none, access_count := 0, loaded_at := none }

/-- A manager with no registrations. -/
def mmEmpty : MemoryManager Nat :=
  { config := MemoryConfig.default, components := [] }

/-- A manager with the single registered, unloaded component. -/
def mmBrain : MemoryManager Nat :=
  { config := MemoryConfig.default, components := [(brainName, crefBrain)] }

/-- The name of a second concrete component. -/
def voiceName : String := "voice"

/-- A loaded component last accessed at instant 0. -/
def crefStale : ComponentRef Nat :=
  { name := brainName, factory := fun _ => 7, unload_callback := none,
    inst := some 7, last_accessed := some 0, access_count := 1, loaded_at := some 0 }

/-- A loaded component last accessed at instant 400. -/
def crefFresh : ComponentRef Nat :=
  { name := voiceName, factory := fun _ => 8, unload_callback := none,
    inst := some 8, last_accessed := some 400, access_count := 1, loaded_at := some 0 }

/-- A manager holding one stale and one fresh loaded component. -/
def mmTwo : MemoryManager Nat :=
  { config := MemoryConfig.default,
    components := [(brainName, crefStale), (voiceName, crefFresh)] }

/-- The event that EventLoop.emit constructs from its arguments. -/
def mkEmitted (event_type : EventType) (data : Nat) (priority : EventPriority)
    (now : Int) (eid : Nat) : Event :=
  { event_type := event_type, data := data, priority := priority,
    timestamp := now, retry_count := 0, max_retries := 3, event_id := eid }

/-- Claim C6: the instance reference is present exactly when the
component is loaded, and unload always clears the reference after
running the disposer, even when the disposer reports an error — the
disposer outcome (present exactly when an instance and a disposer
exist) never prevents the reference from being cleared. -/
theorem unload_clears_reference_despite_disposer_error
    (T : Type) (c : ComponentRef T) :
    (c.unload).1.inst = none ∧
    (c.unload).1.is_loaded = false ∧
    (c.unload).2 = c.inst.bind (fun v => c.unload_callback.map (fun d => d v)) ∧
    c.is_loaded = c.inst.isSome := by
  refine ⟨?_, ?_, ?_, rfl⟩ <;>
    cases h : c.inst <;>
      simp [ComponentRef.unload, ComponentRef.is_loaded, h]

/-- Claim C2: a name absent from the registry makes get_component report
the distinguished not-registered error result to its caller synchronously
(the empty result, with the manager untouched and no factory invoked),
while a registered name always yields a present instance — so the error
is observable to the caller and never a silent drop. -/
theorem get_component_reports_unregistered_error
    (T : Type) (mm : MemoryManager T) (name : String) (now : Int) :
    (lookupComponent mm.components name = none →
      mm.get_component name now = (none, mm, false)) ∧
    (∀ c, lookupComponent mm.components name = some c →
      ((mm.get_component name now).1.isSome = true)) := by
  constructor
  · intro h
    simp [MemoryManager.get_component, h]
  · intro c h
    simp [MemoryManager.get_component, h]

/-- Witness for C2 at concrete inputs: the empty manager reports the
error for the name, and the manager holding that registration returns a
present instance. -/
theorem get_component_reports_unregistered_error_witness :
    mmEmpty.get_component brainName 0 = (none, mmEmpty, false) ∧
    (mmBrain.get_component brainName 0).1.isSome = true :=
  ⟨(get_component_reports_unregistered_error Nat mmEmpty brainName 0).1 rfl,
   (get_component_reports_unregistered_error Nat mmBrain brainName 0).2 crefBrain rfl⟩


/-- Claim C7: emit is non-blocking — at capacity the event is rejected
(empty result), the dropped counter increments by one and the queue is
untouched; below capacity the event is accepted, appended to the queue,
and the metrics are unchanged. -/
theorem emit_nonblocking_reject_at_capacity
    (el : EventLoop) (event_type : EventType) (data : Nat)
    (priority : EventPriority) (now : Int) (eid : Nat) :
    (el.queue_full = true →
      (el.emit event_type data priority now eid).1 = none ∧
      (el.emit event_type data priority now eid).2.queue = el.queue ∧
      (el.emit event_type data priority now eid).2.metrics =
        { el.metrics with dropped := el.metrics.dropped + 1 }) ∧
    (el.queue_full = false →
      (el.emit event_type data priority now eid).1 =
        some (mkEmitted event_type data priority now eid) ∧
      (el.emit event_type data priority now eid).2.queue =
        el.queue ++ [mkEmitted event_type data priority now eid] ∧
      (el.emit event_type data priority now eid).2.metrics = el.metrics) := by
  constructor <;> intro h <;> simp [EventLoop.emit, mkEmitted, h]

set_option maxRecDepth 10000 in
/-- Witness for C7 at concrete inputs: a dispatcher whose default-sized
queue holds 1000 entries rejects and counts the drop; a fresh dispatcher
accepts with metrics unchanged. -/
theorem emit_nonblocking_reject_at_capacity_witness :
    elFull.queue_full = true ∧
    (elFull.emit EventType.system 0 EventPriority.normal 0 1).1 = none ∧
    (elFull.emit EventType.system 0 EventPriority.normal 0 1).2.metrics =
      { elFull.metrics with dropped := elFull.metrics.dropped + 1 } ∧
    elEmptyQ.queue_full = false ∧
    (elEmptyQ.emit EventType.system 0 EventPriority.normal 0 1).2.metrics =
      elEmptyQ.metrics := by
  have hfull : elFull.queue_full = true := by
    simp [elFull, EventLoop.queue_full, EventLoopConfig.default]
  have hempty : elEmptyQ.queue_full = false := by
    simp [elEmptyQ, EventLoop.queue_full, EventLoopConfig.default]
  have h1 := (emit_nonblocking_reject_at_capacity elFull EventType.system 0
    EventPriority.normal 0 1).1 hfull
  have h2 := (emit_nonblocking_reject_at_capacity elEmptyQ EventType.system 0
    EventPriority.normal 0 1).2 hempty
  exact ⟨hfull, h1.1, h1.2.2, hempty, h2.2.2⟩

/-- Claim C9: transition_to is total over all ordered pairs of states —
a no-op (firing nothing) when the destination equals the current state,
and otherwise it commits the destination state and fires exactly the
callbacks registered for the destination, in registration order, each
observing the already-committed new state. -/
theorem transition_fires_destination_callbacks_after_commit
    (sm : StateManager) (s : AgentState) (now : Int) :
    (sm.state = s → sm.transition_to s now = (sm, [])) ∧
    (sm.state ≠ s →
      (sm.transition_to s now).1.state = s ∧
      (sm.transition_to s now).2 = (sm.callbacks s).map (fun cb => (cb, s))) := by
  constructor
  · intro h
    simp [StateManager.transition_to, h]
  · intro h
    by_cases hb : s = AgentState.busy
    · subst hb
      simp [StateManager.transition_to, h]
    · simp [StateManager.transition_to, h, hb]

/-- Witness for C9 at concrete inputs: from IDLE, transitioning to BUSY
commits BUSY and fires exactly the two BUSY callbacks in registration
order, each observing BUSY; transitioning to IDLE is a no-op. -/
theorem transition_fires_destination_callbacks_after_commit_witness :
    (smIdle.transition_to AgentState.busy 5).1.state = AgentState.busy ∧
    (smIdle.transition_to AgentState.busy 5).2 =
      [(1, AgentState.busy), (2, AgentState.busy)] ∧
    smIdle.transition_to AgentState.idle 5 = (smIdle, []) := by
  have h1 := (transition_fires_destination_callbacks_after_commit smIdle
    AgentState.busy 5).2 (by decide)
  have h2 := (transition_fires_destination_callbacks_after_commit smIdle
    AgentState.idle 5).1 rfl
  refine ⟨h1.1, ?_, h2⟩
  rw [h1.2]
  rfl

/-- Claim C4: a transition into BUSY always cancels a pending scheduled
sleep timer; in particular entering IDLE (with power optimization on,
which schedules the sleep timer) and then BUSY leaves no pending timer,
and the cancelled timer can never fire a SLEEPING transition — the
machine stays in BUSY and the fire attempt is a no-op. -/
theorem busy_transition_cancels_pending_sleep_timer
    (sm : StateManager) (t1 t2 t3 t4 : Int) :
    (sm.state ≠ AgentState.busy →
      (sm.transition_to AgentState.busy t1).1.sleep_task = false) ∧
    (sm.config.battery_optimization = true →
      ((sm.set_idle t2).1.sleep_task = true) ∧
      (((sm.set_idle t2).1.set_busy t3).1.sleep_task = false) ∧
      (((sm.set_idle t2).1.set_busy t3).1.state = AgentState.busy) ∧
      ((((sm.set_idle t2).1.set_busy t3).1.timer_fire t4) =
        (((sm.set_idle t2).1.set_busy t3).1, []))) := by
  constructor
  · intro h
    simp [StateManager.transition_to, h]
  · intro hb
    by_cases hi : sm.state = AgentState.idle <;>
      simp [StateManager.set_idle, StateManager.set_busy, StateManager.schedule_sleep,
        StateManager.transition_to, StateManager.timer_fire, hi, hb]

/-- Witness for C4 at concrete inputs: from SLEEPING with default
configuration, going BUSY clears the timer flag; going IDLE then BUSY
leaves no pending timer, ends in BUSY, and the timer fire attempt
afterwards changes nothing. -/
theorem busy_transition_cancels_pending_sleep_timer_witness :
    ((smSleeping.transition_to AgentState.busy 1).1.sleep_task = false) ∧
    ((smSleeping.set_idle 2).1.sleep_task = true) ∧
    (((smSleeping.set_idle 2).1.set_busy 3).1.sleep_task = false) ∧
    (((smSleeping.set_idle 2).1.set_busy 3).1.state = AgentState.busy) ∧
    ((((smSleeping.set_idle 2).1.set_busy 3).1.timer_fire 4) =
      (((smSleeping.set_idle 2).1.set_busy 3).1, [])) := by
  have h := busy_transition_cancels_pending_sleep_timer smSleeping 1 2 3 4
  have h2 := h.2 rfl
  exact ⟨h.1 (by decide), h2.1, h2.2.1, h2.2.2.1, h2.2.2.2⟩

/-- handle_failure never touches the processed counter: only failed,
retried, dropped and the queue can change. -/
theorem handle_failure_keeps_processed (el : EventLoop) (event : Event) :
    (el.handle_failure event).1.metrics.processed = el.metrics.processed := by
  simp only [EventLoop.handle_failure]
  split_ifs <;> rfl

/-- When every registered handler succeeds on the event, the handler
loop adds exactly one processed count per handler and leaves the failure
counters and the queue unchanged. -/
theorem run_handlers_all_ok (event : Event) :
    ∀ (hs : List (Event → HandlerOutcome)) (el : EventLoop),
      (∀ h ∈ hs, h event = HandlerOutcome.ok) →
      (el.run_handlers event hs).metrics.processed = el.metrics.processed + hs.length ∧
      (el.run_handlers event hs).metrics.failed = el.metrics.failed ∧
      (el.run_handlers event hs).metrics.retried = el.metrics.retried ∧
      (el.run_handlers event hs).metrics.dropped = el.metrics.dropped ∧
      (el.run_handlers event hs).queue = el.queue := by
  intro hs
  induction hs with
  | nil =>
    intro el _
    simp [EventLoop.run_handlers]
  | cons h rest ih =>
    intro el hok
    have hh : h event = HandlerOutcome.ok := hok h (by simp)
    have ihs := ih
      { el with metrics := { el.metrics with processed := el.metrics.processed + 1 } }
      (fun g hg => hok g (by simp [hg]))
    simp only [EventLoop.run_handlers, hh] at *
    refine ⟨?_, ihs.2.1, ihs.2.2.1, ihs.2.2.2.1, ihs.2.2.2.2⟩
    rw [ihs.1]
    simp
    omega

/-- Claim C10: the processed counter counts successful handler
invocations, not events — one event with N registered handlers that all
succeed adds N to processed (with the failure counters and the queue
untouched), while a failing or timed-out invocation adds nothing to
processed for that invocation. -/
theorem processed_counts_successful_handler_invocations
    (el : EventLoop) (event : Event) :
    ((∀ h ∈ el.handlers event.event_type, h event = HandlerOutcome.ok) →
      (el.process_event event).metrics.processed =
        el.metrics.processed + (el.handlers event.event_type).length ∧
      (el.process_event event).metrics.failed = el.metrics.failed) ∧
    (∀ hf : Event → HandlerOutcome, hf event ≠ HandlerOutcome.ok →
      (el.run_handlers event [hf]).metrics.processed = el.metrics.processed) := by
  constructor
  · intro hok
    have h := run_handlers_all_ok event (el.handlers event.event_type) el hok
    exact ⟨h.1, h.2.1⟩
  · intro hf hne
    cases hcase : hf event with
    | ok => exact absurd hcase hne
    | error m =>
      simp only [EventLoop.run_handlers, hcase]
      exact handle_failure_keeps_processed el event
    | timeout =>
      simp only [EventLoop.run_handlers, hcase]
      exact handle_failure_keeps_processed el event

/-- Witness for C10 at concrete inputs: three succeeding handlers add
three to processed for one event, and a timing-out handler adds
nothing. -/
theorem processed_counts_successful_handler_invocations_witness :
    (elThreeOk.process_event evNormal).metrics.processed =
      elThreeOk.metrics.processed + 3 ∧
    (elThreeOk.run_handlers evNormal [fun _ => HandlerOutcome.timeout]).metrics.processed =
      elThreeOk.metrics.processed := by
  have h := processed_counts_successful_handler_invocations elThreeOk evNormal
  have hok : ∀ g ∈ elThreeOk.handlers evNormal.event_type,
      g evNormal = HandlerOutcome.ok := by
    intro g hg
    simp [elThreeOk] at hg
    rcases hg with rfl | rfl | rfl
    all_goals rfl
  have h1 := h.1 hok
  refine ⟨?_, h.2 (fun _ => HandlerOutcome.timeout) (by decide)⟩
  simpa [elThreeOk] using h1.1

/-- The sweep loop unloads exactly the entries satisfying the
loaded-and-idle-beyond-threshold test, in registry order, and leaves
every other entry untouched. -/
theorem sweepIdle_characterisation (T : Type) (now threshold : Int) :
    ∀ l : List (String × ComponentRef T),
      (sweepIdle now threshold l).1 =
        (l.filter (fun p => p.2.is_loaded &&
          idleGT (p.2.idle_duration now) threshold)).map Prod.fst ∧
      (sweepIdle now threshold l).2 =
        l.map (fun p => if p.2.is_loaded && idleGT (p.2.idle_duration now) threshold
          then (p.1, (p.2.unload).1) else p) := by
  intro l
  induction l with
  | nil => simp [sweepIdle]
  | cons hd rest ih =>
    obtain ⟨n, c⟩ := hd
    by_cases h1 : c.is_loaded = true
    all_goals by_cases h2 : idleGT (c.idle_duration now) threshold = true
    all_goals simp [sweepIdle, h1, h2, ih.1, ih.2, List.filter_cons]

/-- Claim C8: unload_idle_components unloads exactly the loaded
components whose idle duration exceeds the configured threshold,
returns exactly their names (in registry order), and every other
component — in particular every loaded one accessed within the
threshold — survives the sweep untouched. -/
theorem unload_idle_sweeps_exactly_expired_components (T : Type)
    (mm : MemoryManager T) (now : Int) :
    (mm.unload_idle_components now).1 =
      (mm.components.filter (fun p => p.2.is_loaded &&
        idleGT (p.2.idle_duration now) mm.config.unload_after_idle_seconds)).map Prod.fst ∧
    (mm.unload_idle_components now).2.components =
      mm.components.map (fun p =>
        if p.2.is_loaded && idleGT (p.2.idle_duration now) mm.config.unload_after_idle_seconds
        then (p.1, (p.2.unload).1) else p) ∧
    ∀ p ∈ mm.components,
      (p.2.is_loaded && idleGT (p.2.idle_duration now) mm.config.unload_after_idle_seconds)
        = false →
      p ∈ (mm.unload_idle_components now).2.components := by
  have h := sweepIdle_characterisation T now mm.config.unload_after_idle_seconds mm.components
  refine ⟨h.1, h.2, ?_⟩
  intro p hp hcond
  have : (mm.unload_idle_components now).2.components =
      mm.components.map (fun p =>
        if p.2.is_loaded && idleGT (p.2.idle_duration now) mm.config.unload_after_idle_seconds
        then (p.1, (p.2.unload).1) else p) := h.2
  rw [this]
  exact List.mem_map.mpr ⟨p, hp, by simp [hcond]⟩

/-- Witness for C8 at concrete inputs: at instant 301, the component
idle since instant 0 (beyond the 300s default threshold) is unloaded and
its name returned, while the component accessed at instant 400 stays in
the registry untouched. -/
theorem unload_idle_sweeps_exactly_expired_components_witness :
    (mmTwo.unload_idle_components 301).1 = [brainName] ∧
    (mmTwo.unload_idle_components 301).2.components =
      [(brainName, (crefStale.unload).1), (voiceName, crefFresh)] ∧
    (voiceName, crefFresh) ∈ (mmTwo.unload_idle_components 301).2.components := by
  have h := unload_idle_sweeps_exactly_expired_components Nat mmTwo 301
  refine ⟨?_, ?_, ?_⟩
  · rw [h.1]
    rfl
  · rw [h.2.1]
    rfl
  · exact h.2.2 (voiceName, crefFresh) (by simp [mmTwo]) rfl

/-- Updating the entry for a name already present makes lookups of that
name see the new reference. -/
theorem lookup_update_self (T : Type) :
    ∀ (l : List (String × ComponentRef T)) (name : String) (c c2 : ComponentRef T),
      lookupComponent l name = some c →
      lookupComponent (updateComponent l name c2) name = some c2 := by
  intro l
  induction l with
  | nil => intro name c c2 h; simp [lookupComponent] at h
  | cons hd rest ih =>
    intro name c c2 h
    obtain ⟨n, cr⟩ := hd
    by_cases hn : n = name
    · simp [updateComponent, lookupComponent, hn]
    · simp only [lookupComponent, updateComponent, if_neg hn] at h ⊢
      exact ih name c c2 h

/-- Once a component is loaded, every further get_component call on its
name returns the same instance, invokes no factory, and adds one to the
access counter per call. -/
theorem get_n_loaded_phase (T : Type) (name : String) :
    ∀ (ts : List Int) (mm : MemoryManager T) (c : ComponentRef T) (v : T),
      lookupComponent mm.components name = some c →
      c.inst = some v →
      (mm.get_n name ts).1 = List.replicate ts.length (some v) ∧
      (mm.get_n name ts).2.2 = 0 ∧
      ∃ c2, lookupComponent (mm.get_n name ts).2.1.components name = some c2 ∧
        c2.inst = some v ∧ c2.access_count = c.access_count + ts.length := by
  intro ts
  induction ts with
  | nil =>
    intro mm c v hl hv
    exact ⟨rfl, rfl, ⟨c, hl, hv, by simp [MemoryManager.get_n]⟩⟩
  | cons t ts ih =>
    intro mm c v hl hv
    have hstep : mm.get_component name t =
        (some v,
         MemoryManager.mk mm.config
           (updateComponent mm.components name
             ({ c with last_accessed := some t, access_count := c.access_count + 1 })),
         false) := by
      simp [MemoryManager.get_component, hl, ComponentRef.load, hv]
    have hl2 : lookupComponent
        (updateComponent mm.components name
          ({ c with last_accessed := some t, access_count := c.access_count + 1 })) name =
        some ({ c with last_accessed := some t, access_count := c.access_count + 1 }) :=
      lookup_update_self T mm.components name c _ hl
    have ihr := ih
      (MemoryManager.mk mm.config
        (updateComponent mm.components name
          ({ c with last_accessed := some t, access_count := c.access_count + 1 })))
      ({ c with last_accessed := some t, access_count := c.access_count + 1 }) v hl2 hv
    simp only [MemoryManager.get_n, hstep]
    refine ⟨?_, ?_, ?_⟩
    · simp [ihr.1, List.replicate_succ]
    · simp [ihr.2.1]
    · obtain ⟨c2, hc2l, hc2v, hc2a⟩ := ihr.2.2
      have ha : c2.access_count = c.access_count + 1 + ts.length := hc2a
      refine ⟨c2, hc2l, hc2v, ?_⟩
      rw [List.length_cons]
      omega

/-- Claim C5: starting from a registered, unloaded component with a
fresh access counter, a sequence of get_component calls on its name
invokes the factory exactly once (on the first call of the load cycle),
returns the identical factory-produced instance on every call, and
leaves the access counter equal to the number of calls. -/
theorem get_invokes_factory_once_same_instance_counts_accesses
    (T : Type) (mm : MemoryManager T) (name : String) (c : ComponentRef T)
    (t0 : Int) (ts : List Int)
    (hl : lookupComponent mm.components name = some c)
    (hunloaded : c.inst = none) (hcount : c.access_count = 0) :
    (mm.get_n name (t0 :: ts)).1 =
      List.replicate (ts.length + 1) (some (c.factory ())) ∧
    (mm.get_n name (t0 :: ts)).2.2 = 1 ∧
    ∃ c2, lookupComponent (mm.get_n name (t0 :: ts)).2.1.components name = some c2 ∧
      c2.inst = some (c.factory ()) ∧ c2.access_count = ts.length + 1 := by
  have hstep : mm.get_component name t0 =
      (some (c.factory ()),
       MemoryManager.mk mm.config
         (updateComponent mm.components name
           ({ c with inst := some (c.factory ()), loaded_at := some t0, last_accessed := some t0, access_count := c.access_count + 1 })),
       true) := by
    simp [MemoryManager.get_component, hl, ComponentRef.load, hunloaded]
  have hl2 : lookupComponent
      (updateComponent mm.components name
        ({ c with inst := some (c.factory ()), loaded_at := some t0, last_accessed := some t0, access_count := c.access_count + 1 })) name =
      some ({ c with inst := some (c.factory ()), loaded_at := some t0, last_accessed := some t0, access_count := c.access_count + 1 }) :=
    lookup_update_self T mm.components name c _ hl
  have hrest := get_n_loaded_phase T name ts
    (MemoryManager.mk mm.config
      (updateComponent mm.components name
        ({ c with inst := some (c.factory ()), loaded_at := some t0, last_accessed := some t0, access_count := c.access_count + 1 })))
    ({ c with inst := some (c.factory ()), loaded_at := some t0, last_accessed := some t0, access_count := c.access_count + 1 })
    (c.factory ()) hl2 rfl
  simp only [MemoryManager.get_n, hstep]
  refine ⟨?_, ?_, ?_⟩
  · simp [hrest.1, List.replicate_succ]
  · simp [hrest.2.1]
  · obtain ⟨c2, hc2l, hc2v, hc2a⟩ := hrest.2.2
    refine ⟨c2, hc2l, hc2v, ?_⟩
    simp at hc2a
    omega

/-- Witness for C5 at concrete inputs: five calls on the registered
component yield the token 42 every time, one factory invocation in
total, and a final access counter of five. -/
theorem get_invokes_factory_once_same_instance_counts_accesses_witness :
    (mmBrain.get_n brainName [0, 1, 2, 3, 4]).1 = List.replicate 5 (some 42) ∧
    (mmBrain.get_n brainName [0, 1, 2, 3, 4]).2.2 = 1 ∧
    ∃ c2, lookupComponent
        (mmBrain.get_n brainName [0, 1, 2, 3, 4]).2.1.components brainName = some c2 ∧
      c2.inst = some 42 ∧ c2.access_count = 5 := by
  have h := get_invokes_factory_once_same_instance_counts_accesses
    Nat mmBrain brainName crefBrain 0 [1, 2, 3, 4] rfl rfl rfl
  exact ⟨h.1, h.2.1, h.2.2⟩


/-- A single emit against a non-full queue: the event is accepted,
appended to the queue, and the configuration is untouched. -/
theorem emit_step_not_full (el : EventLoop) (t : EventType) (d : Nat)
    (p : EventPriority) (n : Int) (i : Nat) (h : el.queue_full = false) :
    (el.emit t d p n i).1 = some (mkEmitted t d p n i) ∧
    (el.emit t d p n i).2.queue = el.queue ++ [mkEmitted t d p n i] ∧
    (el.emit t d p n i).2.config = el.config := by
  simp [EventLoop.emit, mkEmitted, h]

/-- Claim C3: two events of different priority submitted to a started
dispatcher whose queue was empty before both submissions are both
accepted, and the workers dispatch the one with the lower priority
ordinal (higher priority) to its handlers first, whichever order they
were submitted in. -/
theorem higher_priority_dispatched_first
    (el : EventLoop) (t1 t2 : EventType) (d1 d2 : Nat)
    (p1 p2 : EventPriority) (n1 n2 : Int) (id1 id2 : Nat)
    (hq : el.queue = []) (hc : el.config.max_queue_size = 1000)
    (hne : p1.value ≠ p2.value) :
    ((el.emit t1 d1 p1 n1 id1).2.emit t2 d2 p2 n2 id2).2.queue =
      [mkEmitted t1 d1 p1 n1 id1, mkEmitted t2 d2 p2 n2 id2] ∧
    dispatch_order 2 (((el.emit t1 d1 p1 n1 id1).2.emit t2 d2 p2 n2 id2).2.queue) =
      (if p1.value < p2.value
       then [mkEmitted t1 d1 p1 n1 id1, mkEmitted t2 d2 p2 n2 id2]
       else [mkEmitted t2 d2 p2 n2 id2, mkEmitted t1 d1 p1 n1 id1]) := by
  have hf1 : el.queue_full = false := by
    simp [EventLoop.queue_full, hq, hc]
  have hs1 := emit_step_not_full el t1 d1 p1 n1 id1 hf1
  have hq1 : (el.emit t1 d1 p1 n1 id1).2.queue = [mkEmitted t1 d1 p1 n1 id1] := by
    rw [hs1.2.1, hq]
    rfl
  have hf2 : (el.emit t1 d1 p1 n1 id1).2.queue_full = false := by
    simp [EventLoop.queue_full, hq1, hs1.2.2, hc]
  have hs2 := emit_step_not_full (el.emit t1 d1 p1 n1 id1).2 t2 d2 p2 n2 id2 hf2
  have h2 : ((el.emit t1 d1 p1 n1 id1).2.emit t2 d2 p2 n2 id2).2.queue =
      [mkEmitted t1 d1 p1 n1 id1, mkEmitted t2 d2 p2 n2 id2] := by
    rw [hs2.2.1, hq1]
    rfl
  refine ⟨h2, ?_⟩
  rw [h2]
  by_cases hlt : p1.value < p2.value
  · have hltB : Event.lt (mkEmitted t2 d2 p2 n2 id2) (mkEmitted t1 d1 p1 n1 id1) = false := by
      simp [Event.lt, mkEmitted]
      omega
    simp [dispatch_order, pq_pop_cons, hltB, hlt]
  · have h21 : p2.value < p1.value := by omega
    have hltB : Event.lt (mkEmitted t2 d2 p2 n2 id2) (mkEmitted t1 d1 p1 n1 id1) = true := by
      simp [Event.lt, mkEmitted]
      omega
    simp [dispatch_order, pq_pop_cons, hltB, hlt]

/-- Witness for C3 at concrete inputs: a BACKGROUND event submitted
first and a CRITICAL event submitted second to a fresh dispatcher are
both queued, and the CRITICAL one is dispatched first. -/
theorem higher_priority_dispatched_first_witness :
    ((elEmptyQ.emit EventType.system 0 EventPriority.background 0 1).2.emit
        EventType.call 0 EventPriority.critical 0 2).2.queue =
      [mkEmitted EventType.system 0 EventPriority.background 0 1,
       mkEmitted EventType.call 0 EventPriority.critical 0 2] ∧
    dispatch_order 2 (((elEmptyQ.emit EventType.system 0 EventPriority.background 0 1).2.emit
        EventType.call 0 EventPriority.critical 0 2).2.queue) =
      [mkEmitted EventType.call 0 EventPriority.critical 0 2,
       mkEmitted EventType.system 0 EventPriority.background 0 1] := by
  have h := higher_priority_dispatched_first elEmptyQ EventType.system EventType.call
    0 0 EventPriority.background EventPriority.critical 0 0 1 2 rfl rfl (by decide)
  refine ⟨h.1, ?_⟩
  rw [h.2]
  rfl

/-- A worker facing an empty queue does nothing, whatever the fuel. -/
theorem worker_drain_empty_queue (f : Nat) (el : EventLoop) (h : el.queue = []) :
    worker_drain f el = (0, el) := by
  cases f with
  | zero => simp [worker_drain]
  | succ f => simp [worker_drain, h]

/-- One drain pass over the always-failing dispatcher while the retry
ceiling is not yet reached: one handler invocation, one failed count,
one retried count, and the event is resubmitted with its retry counter
bumped. -/
theorem drain_pass_retry (c R : Nat) (m : Metrics) (f : Nat) (h : c < R) :
    (worker_drain (f + 1) (elFailing [mkEv c R] m)).1 =
      1 + (worker_drain f (elFailing [mkEv (c + 1) R]
        (Metrics.mk m.processed (m.failed + 1) (m.retried + 1) m.dropped))).1 ∧
    (worker_drain (f + 1) (elFailing [mkEv c R] m)).2 =
      (worker_drain f (elFailing [mkEv (c + 1) R]
        (Metrics.mk m.processed (m.failed + 1) (m.retried + 1) m.dropped))).2 := by
  constructor <;>
    simp [worker_drain, elFailing, mkEv, EventLoop.process_event,
      EventLoop.run_handlers, hfail, EventLoop.handle_failure,
      EventLoop.queue_full, EventLoopConfig.default, pq_pop_cons, h]

/-- One drain pass over the always-failing dispatcher once the retry
ceiling is reached: one handler invocation, one failed count, and the
event is terminally discarded (no retry, no resubmission). -/
theorem drain_pass_exhausted (c R : Nat) (m : Metrics) (f : Nat) (h : ¬ c < R) :
    (worker_drain (f + 1) (elFailing [mkEv c R] m)).1 =
      1 + (worker_drain f (elFailing []
        (Metrics.mk m.processed (m.failed + 1) m.retried m.dropped))).1 ∧
    (worker_drain (f + 1) (elFailing [mkEv c R] m)).2 =
      (worker_drain f (elFailing []
        (Metrics.mk m.processed (m.failed + 1) m.retried m.dropped))).2 := by
  constructor <;>
    simp [worker_drain, elFailing, mkEv, EventLoop.process_event,
      EventLoop.run_handlers, hfail, EventLoop.handle_failure,
      EventLoop.queue_full, EventLoopConfig.default, pq_pop_cons, h]

/-- Draining an always-failing event whose retry counter stands k short
of its ceiling takes exactly k plus one handler invocations, counts each
failed invocation in failed, and counts k retries. -/
theorem drain_always_failing_aux :
    ∀ (k c fuel : Nat) (m : Metrics), k + 1 ≤ fuel →
      (worker_drain fuel (elFailing [mkEv c (c + k)] m)).1 = k + 1 ∧
      (worker_drain fuel (elFailing [mkEv c (c + k)] m)).2.metrics.failed =
        m.failed + (k + 1) ∧
      (worker_drain fuel (elFailing [mkEv c (c + k)] m)).2.metrics.retried =
        m.retried + k ∧
      (worker_drain fuel (elFailing [mkEv c (c + k)] m)).2.metrics.processed =
        m.processed ∧
      (worker_drain fuel (elFailing [mkEv c (c + k)] m)).2.metrics.dropped =
        m.dropped ∧
      (worker_drain fuel (elFailing [mkEv c (c + k)] m)).2.queue = [] := by
  intro k
  induction k with
  | zero =>
    intro c fuel m hfu
    obtain ⟨f, rfl⟩ : ∃ f, fuel = f + 1 := ⟨fuel - 1, by omega⟩
    have hp := drain_pass_exhausted c (c + 0) m f (by omega)
    have he := worker_drain_empty_queue f
      (elFailing [] (Metrics.mk m.processed (m.failed + 1) m.retried m.dropped)) rfl
    rw [hp.1, hp.2, he]
    simp [elFailing]
  | succ k ih =>
    intro c fuel m hfu
    obtain ⟨f, rfl⟩ : ∃ f, fuel = f + 1 := ⟨fuel - 1, by omega⟩
    have hp := drain_pass_retry c (c + (k + 1)) m f (by omega)
    have harg : c + (k + 1) = (c + 1) + k := by omega
    rw [harg] at hp
    have ih2 := ih (c + 1) f
      (Metrics.mk m.processed (m.failed + 1) (m.retried + 1) m.dropped) (by omega)
    rw [harg, hp.1, hp.2]
    refine ⟨?_, ?_, ?_, ?_, ?_, ?_⟩
    · rw [ih2.1]
      omega
    · rw [ih2.2.1]
      simp
      omega
    · rw [ih2.2.2.1]
      simp
      omega
    · rw [ih2.2.2.2.1]
    · rw [ih2.2.2.2.2.1]
    · exact ih2.2.2.2.2.2

/-- Counterexample to C1 as stated: with the retry ceiling set to 2
(the max_retries field the spec calls maxAttempts), an always-failing
event is not attempted 2 times with failed equal to 1 and retried equal
to 1 — the dispatcher performs 3 handler invocations, counts failed 3
times and retried 2 times. -/
theorem retry_bound_as_claimed_counterexample :
    ¬ ((worker_drain 10 (elFailing [mkEv 0 2] Metrics.zero)).1 = 2 ∧
       (worker_drain 10 (elFailing [mkEv 0 2] Metrics.zero)).2.metrics.failed = 1 ∧
       (worker_drain 10 (elFailing [mkEv 0 2] Metrics.zero)).2.metrics.retried = 1) := by
  decide

/-- Claim C1 (amended): an event whose single registered handler always
fails is attempted exactly max_retries + 1 times before being terminally
dropped, with the failed counter incremented max_retries + 1 times (once
per failed attempt, not once in total) and the retried counter
incremented max_retries times; processed and dropped stay untouched and
the queue ends empty. -/
theorem always_failing_attempted_retry_ceiling_plus_one
    (R fuel : Nat) (m : Metrics) (hfuel : R + 1 ≤ fuel) :
    (worker_drain fuel (elFailing [mkEv 0 R] m)).1 = R + 1 ∧
    (worker_drain fuel (elFailing [mkEv 0 R] m)).2.metrics.failed = m.failed + (R + 1) ∧
    (worker_drain fuel (elFailing [mkEv 0 R] m)).2.metrics.retried = m.retried + R ∧
    (worker_drain fuel (elFailing [mkEv 0 R] m)).2.metrics.processed = m.processed ∧
    (worker_drain fuel (elFailing [mkEv 0 R] m)).2.metrics.dropped = m.dropped ∧
    (worker_drain fuel (elFailing [mkEv 0 R] m)).2.queue = [] := by
  have h := drain_always_failing_aux R 0 fuel m hfuel
  rw [Nat.zero_add] at h
  exact h

/-- Witness for the amended C1 at concrete inputs: retry ceiling 2 gives
3 attempts, failed 3, retried 2, nothing processed or dropped. -/
theorem always_failing_attempted_retry_ceiling_plus_one_witness :
    (worker_drain 10 (elFailing [mkEv 0 2] Metrics.zero)).1 = 2 + 1 ∧
    (worker_drain 10 (elFailing [mkEv 0 2] Metrics.zero)).2.metrics.failed =
      Metrics.zero.failed + (2 + 1) ∧
    (worker_drain 10 (elFailing [mkEv 0 2] Metrics.zero)).2.metrics.retried =
      Metrics.zero.retried + 2 := by
  have h := always_failing_attempted_retry_ceiling_plus_one 2 10 Metrics.zero (by decide)
  exact ⟨h.1, h.2.1, h.2.2.1⟩
